import Mathlib

/-!
Shallow embedding of `src/packages/legacy/core/App/screens/Connection.tsx`
(aries-mobile-agent-react-native).

The screen reconciles asynchronously arriving signals — an out-of-band
record, a connection record, a stream of candidate notifications, and a
single-shot timer — into at most one navigation decision.  Per the spec's
concurrency model (§5), all logic runs as reactions to discrete state
changes, processed one at a time, never concurrently with itself; we model
one process instance as a `World` and each reaction (each `useEffect` body,
the timer callback, the dismiss handler, teardown, and a change of the
externally observed inputs) as one atomic `step` on it.

Local component state (`LocalState`), the goal-code vocabulary
(`GoalCodes`), the notification-matching loop (`matcherEffect`), the
goal-code router (`routerEffect`, lines 114–187), the OpenID hook
(`openIDEffect`, lines 190–206), the delay watchdog hook (`delayEffect`,
lines 103–112), the dismiss handler (`onDismissModalTouched`, lines 93–96)
and the timer lifecycle (lines 78–91, 208–211) are all translated directly
from the source.  Navigation calls are recorded in `World.navLog` (most
recent first); accessibility announcements, rendering, and back-press
interception are out of scope per spec §1.
-/

namespace ConnectionScreen

/-- `outOfBandInvitation` as accessed by the screen: only its `goalCode`
(possibly `undefined`, hence `Option`) is read. -/
structure OutOfBandInvitation where
  goalCode : Option String
  deriving DecidableEq, Repr

/-- The out-of-band record (`useOutOfBandById`): the screen reads its
`outOfBandInvitation.goalCode` and `getTags()?.invitationRequestsThreadIds`
(line 227), which may be `undefined`, hence `Option`. -/
structure OobRecord where
  outOfBandInvitation : OutOfBandInvitation
  invitationRequestsThreadIds : Option (List String)
  deriving DecidableEq, Repr

/-- The connection record (`useConnectionByOutOfBandId`): only its `id` is
read. -/
structure ConnectionRecord where
  id : String
  deriving DecidableEq, Repr

/-- The `type` discriminant of a candidate notification record, as compared
against string literals in the source (lines 199, 220, 235, 240). -/
inductive NotificationType where
  | basicMessageRecord
  | credentialExchangeRecord
  | proofExchangeRecord
  | w3cCredentialRecord
  | sdJwtVcRecord
  deriving DecidableEq, Repr

/-- A candidate notification record.  The source accesses `.type`, `.id`,
and — through unchecked casts — `.connectionId` and `.threadId`, which are
`undefined` on the W3C/SD-JWT variants; we model the possibly-undefined
fields as `Option`. -/
structure NotificationRecord where
  type : NotificationType
  id : String
  connectionId : Option String := none
  threadId : Option String := none
  deriving DecidableEq, Repr

/-- `GoalCodes` constant object (lines 28–32). -/
def GoalCodes.proofRequestVerify : String := "aries.vc.verify"

/-- `GoalCodes.proofRequestVerifyOnce` (line 30). -/
def GoalCodes.proofRequestVerifyOnce : String := "aries.vc.verify.once"

/-- `GoalCodes.credentialOffer` (line 31). -/
def GoalCodes.credentialOffer : String := "aries.vc.issue"

/-- `Object.values(GoalCodes)` (line 121). -/
def goalCodeValues : List String :=
  [GoalCodes.proofRequestVerify, GoalCodes.proofRequestVerifyOnce, GoalCodes.credentialOffer]

/-- `LocalState` (lines 22–26). -/
structure LocalState where
  inProgress : Bool
  notificationRecord : Option NotificationRecord
  shouldShowDelayMessage : Bool
  deriving DecidableEq, Repr

/-- The `useReducer` initial state (lines 46–50). -/
def initialLocalState : LocalState :=
  { inProgress := true, shouldShowDelayMessage := false, notificationRecord := none }

/-- The fixed navigation destinations the screen can invoke (Chat via stack
reset, ProofRequest / CredentialOffer / OpenIDCredentialDetails via
`navigation.replace`, Home via the parent navigator). -/
inductive Destination where
  | chat (connectionId : String)
  | proofRequest (proofId : String)
  | credentialOffer (credentialId : String)
  | openIDCredentialDetails (credential : NotificationRecord)
  | home
  deriving DecidableEq, Repr

/-- Line 226: `connection && notification.connectionId === connection.id`. -/
def connectionIdMatches (connection : Option ConnectionRecord) (n : NotificationRecord) : Bool :=
  match connection with
  | some c => n.connectionId == some c.id
  | none => false

/-- Line 227:
`oobRecord?.getTags()?.invitationRequestsThreadIds?.includes(notification?.threadId ?? "")`. -/
def threadIdMatches (oobRecord : Option OobRecord) (n : NotificationRecord) : Bool :=
  match oobRecord with
  | some o =>
    match o.invitationRequestsThreadIds with
    | some tids => tids.contains (n.threadId.getD "")
    | none => false
  | none => false

/-- One iteration of the matcher loop body (lines 218–245): BasicMessage
records are skipped (lines 220–223); a connection-id or thread-id
correlation matches (lines 225–233); otherwise a W3C credential record
(lines 235–238) or an SD-JWT VC record (lines 240–243) matches
unconditionally. -/
def notifMatches (connection : Option ConnectionRecord) (oobRecord : Option OobRecord)
    (n : NotificationRecord) : Bool :=
  if n.type == .basicMessageRecord then false
  else if connectionIdMatches connection n || threadIdMatches oobRecord n then true
  else if n.type == .w3cCredentialRecord then true
  else n.type == .sdJwtVcRecord

/-- The matcher `useEffect` (lines 213–246): returns early unless
`state.inProgress` holds and no `notificationRecord` is set (line 214);
otherwise dispatches the first matching notification of the feed, if any
(`break` after the first match corresponds to `List.find?`). -/
def matcherEffect (connection : Option ConnectionRecord) (oobRecord : Option OobRecord)
    (notifications : List NotificationRecord) (state : LocalState) : LocalState :=
  if !state.inProgress || state.notificationRecord.isSome then state
  else
    match notifications.find? (notifMatches connection oobRecord) with
    | some n => { state with notificationRecord := some n }
    | none => state

/-- The router `useEffect` (lines 114–187).  Returns the updated local state
and the navigation call it issues, if any.
* line 115: return early when there is no `oobRecord` or `inProgress` is
  false;
* lines 121–133: a connection with a goal code outside `goalCodeValues`
  (with `goalCode ?? ''`) resolves to Chat for that connection;
* lines 137–139: otherwise wait until a `notificationRecord` is set;
* lines 142–147: no connection: connectionless proof request, resolve to
  ProofRequest keyed by the notification's id;
* lines 152–156: the defensive re-check of `oobRecord` is unreachable here
  (already matched `some` above);
* lines 160–176: goal code verify / verify-once resolves to ProofRequest,
  credential-offer resolves to CredentialOffer, each keyed by the
  notification's id;
* lines 178–186: any other goal code resolves to Chat (defensive, dead
  given the line-121 guard). -/
def routerEffect (oobRecord : Option OobRecord) (connection : Option ConnectionRecord)
    (state : LocalState) : LocalState × Option Destination :=
  match oobRecord with
  | none => (state, none)
  | some oob =>
    if !state.inProgress then (state, none)
    else
      match connection with
      | some c =>
        if !(goalCodeValues.contains (oob.outOfBandInvitation.goalCode.getD "")) then
          ({ state with inProgress := false }, some (.chat c.id))
        else
          match state.notificationRecord with
          | none => (state, none)
          | some n =>
            let goalCode := oob.outOfBandInvitation.goalCode
            if goalCode == some GoalCodes.proofRequestVerify
                || goalCode == some GoalCodes.proofRequestVerifyOnce then
              ({ state with inProgress := false }, some (.proofRequest n.id))
            else if goalCode == some GoalCodes.credentialOffer then
              ({ state with inProgress := false }, some (.credentialOffer n.id))
            else
              ({ state with inProgress := false }, some (.chat c.id))
      | none =>
        match state.notificationRecord with
        | none => (state, none)
        | some n => ({ state with inProgress := false }, some (.proofRequest n.id))

/-- The OpenID `useEffect` (lines 190–206): while `inProgress`, if the
matched notification is a W3C credential or SD-JWT VC record, resolve to
OpenIDCredentialDetails carrying the record itself. -/
def openIDEffect (state : LocalState) : LocalState × Option Destination :=
  if !state.inProgress then (state, none)
  else
    match state.notificationRecord with
    | none => (state, none)
    | some n =>
      if n.type == .w3cCredentialRecord || n.type == .sdJwtVcRecord then
        ({ state with inProgress := false }, some (.openIDCredentialDetails n))
      else (state, none)

/-- The delay `useEffect` (lines 103–112): when the delay message flag is up
and no notification has matched, either auto-redirect Home (clearing the
flag and ending the process) or — with auto-redirect disabled — only
announce "taking too long", an out-of-scope side channel (spec §1), leaving
the local state untouched.  Note this hook does not consult
`state.inProgress`. -/
def delayEffect (autoRedirectConnectionToHome : Bool) (state : LocalState) :
    LocalState × Option Destination :=
  if state.shouldShowDelayMessage && state.notificationRecord.isNone then
    if autoRedirectConnectionToHome then
      ({ state with shouldShowDelayMessage := false, inProgress := false }, some .home)
    else (state, none)
  else (state, none)

/-- `onDismissModalTouched` (lines 93–96): unconditionally dispatches
`shouldShowDelayMessage := false, inProgress := false` and navigates Home.
It does not touch the timer. -/
def onDismissModalTouched (state : LocalState) : LocalState × Destination :=
  ({ state with shouldShowDelayMessage := false, inProgress := false }, .home)

/-- The externally observed inputs of one instance: the out-of-band record,
the connection record, the notification feed, and the
`autoRedirectConnectionToHome` configuration flag. -/
structure Env where
  oobRecord : Option OobRecord
  connection : Option ConnectionRecord
  notifications : List NotificationRecord
  autoRedirectConnectionToHome : Bool
  deriving DecidableEq, Repr

/-- One process instance: observed inputs, local reducer state, whether the
single-shot timer is still pending (`timerRef.current !== null`), whether
the component has been torn down (unmounted), and the navigation calls
issued so far, most recent first. -/
structure World where
  env : Env
  state : LocalState
  timerActive : Bool
  tornDown : Bool
  navLog : List Destination
  deriving DecidableEq, Repr

/-- The discrete reactions of one instance: a change of the observed
inputs, the timer callback firing, one evaluation of each `useEffect` body,
the dismiss button handler, and teardown (unmount cleanup). -/
inductive Event where
  | setEnv (e : Env)
  | timerFire
  | runDelayEffect
  | runRouterEffect
  | runOpenIDEffect
  | runMatcherEffect
  | dismiss
  | teardown
  deriving DecidableEq, Repr

/-- Commit an effect's result: install the new local state and record the
navigation call, if one was issued. -/
def applyEffect (w : World) (result : LocalState × Option Destination) : World :=
  match result with
  | (s, none) => { w with state := s }
  | (s, some d) => { w with state := s, navLog := d :: w.navLog }

/-- One atomic reaction.  After teardown nothing runs.  The timer callback
(lines 79–82) sets `shouldShowDelayMessage` and clears `timerRef`
(single-shot).  Teardown (line 210) runs `abortTimer` (lines 86–91),
clearing any pending timer.  The dismiss handler always dispatches and
navigates Home. -/
def step (w : World) (e : Event) : World :=
  if w.tornDown then w
  else
    match e with
    | .setEnv env => { w with env := env }
    | .timerFire =>
      if w.timerActive then
        { w with state := { w.state with shouldShowDelayMessage := true }, timerActive := false }
      else w
    | .runDelayEffect => applyEffect w (delayEffect w.env.autoRedirectConnectionToHome w.state)
    | .runRouterEffect => applyEffect w (routerEffect w.env.oobRecord w.env.connection w.state)
    | .runOpenIDEffect => applyEffect w (openIDEffect w.state)
    | .runMatcherEffect =>
      { w with state := matcherEffect w.env.connection w.env.oobRecord w.env.notifications w.state }
    | .dismiss =>
      match onDismissModalTouched w.state with
      | (s, d) => { w with state := s, navLog := d :: w.navLog }
    | .teardown => { w with tornDown := true, timerActive := false }

/-- Run a sequence of reactions. -/
def run (w : World) (evs : List Event) : World := evs.foldl step w

/-- The instance at mount: fresh local state (lines 46–50), timer started
(the timer `useEffect`, lines 208–211, runs `startTimer` on mount), no
navigation issued. -/
def initWorld (env : Env) : World :=
  { env := env, state := initialLocalState, timerActive := true, tornDown := false, navLog := [] }

/-! ### Concrete fixtures -/

/-- A present connection together with an invitation whose goal code is
outside the `GoalCodes` vocabulary, auto-redirect enabled. -/
def unknownGoalEnv : Env :=
  { oobRecord := some { outOfBandInvitation := { goalCode := some "unknown.goal" },
                        invitationRequestsThreadIds := some [] },
    connection := some { id := "conn-1" },
    notifications := [],
    autoRedirectConnectionToHome := true }

/-- A W3C credential notification record: no connection-id or thread-id
correlation, as in the source's OpenID flow. -/
def w3cNotification : NotificationRecord :=
  { type := .w3cCredentialRecord, id := "w3c-1" }

/-- No connection, invitation goal code `aries.vc.verify.once`, and a W3C
credential notification in the feed. -/
def verifyOnceNoConnEnv : Env :=
  { oobRecord := some { outOfBandInvitation := { goalCode := some GoalCodes.proofRequestVerifyOnce },
                        invitationRequestsThreadIds := some [] },
    connection := none,
    notifications := [w3cNotification],
    autoRedirectConnectionToHome := false }

/-- No records at all, auto-redirect enabled. -/
def emptyAutoRedirectEnv : Env :=
  { oobRecord := none, connection := none, notifications := [],
    autoRedirectConnectionToHome := true }

/-- No records at all, auto-redirect disabled. -/
def emptyNoRedirectEnv : Env :=
  { oobRecord := none, connection := none, notifications := [],
    autoRedirectConnectionToHome := false }

/-! ### Helper lemmas -/

/-- After teardown, every event is a no-op. -/
theorem step_tornDown (w : World) (e : Event) (h : w.tornDown = true) : step w e = w := by
  simp [step, h]

/-- After teardown, every event sequence is a no-op. -/
theorem run_tornDown (w : World) (evs : List Event) (h : w.tornDown = true) : run w evs = w := by
  induction evs with
  | nil => rfl
  | cons e evs ih =>
    show run (step w e) evs = w
    rw [step_tornDown w e h, ih]

/-! ### Counterexample and amended theorems for the terminal-transition and
timer claims -/

/-- **C1 (counterexample).** With a connection and an unknown goal code the
router resolves to Chat and sets `inProgress := false`; yet the still
pending timer afterwards mutates `shouldShowDelayMessage` (a `ProcessState`
mutation after the first navigation), and the delay hook — which does not
consult `inProgress` — then issues a second navigation (Home) when
auto-redirect is enabled. -/
theorem C1_counterexample :
    (run (initWorld unknownGoalEnv) [.runRouterEffect]).navLog = [.chat "conn-1"]
    ∧ (run (initWorld unknownGoalEnv) [.runRouterEffect]).state.inProgress = false
    ∧ (run (initWorld unknownGoalEnv)
        [.runRouterEffect, .timerFire]).state.shouldShowDelayMessage = true
    ∧ (run (initWorld unknownGoalEnv) [.runRouterEffect, .timerFire, .runDelayEffect]).navLog
        = [.home, .chat "conn-1"] :=
  ⟨rfl, rfl, rfl, rfl⟩

/-- **C2 (counterexample).** No connection, goal code
`aries.vc.verify.once`, a W3C credential notification matched: the router's
connectionless branch (lines 142–147) runs before the OpenID hook and
resolves to ProofRequest keyed by the record's id; no
OpenIDCredentialDetails navigation occurs. -/
theorem C2_counterexample :
    (run (initWorld verifyOnceNoConnEnv) [.runMatcherEffect]).state.notificationRecord
      = some w3cNotification
    ∧ (run (initWorld verifyOnceNoConnEnv)
        [.runMatcherEffect, .runRouterEffect, .runOpenIDEffect]).navLog
      = [.proofRequest "w3c-1"] :=
  ⟨rfl, rfl⟩

/-- **C3 (counterexample).** After normal resolution (router resolves to
Chat, `inProgress = false`) the timer is still pending and actually fires,
mutating the local state; likewise after a user abort (dismiss) the timer
is still pending.  Cancellation happens only on teardown. -/
theorem C3_counterexample :
    (run (initWorld unknownGoalEnv) [.runRouterEffect]).state.inProgress = false
    ∧ (run (initWorld unknownGoalEnv) [.runRouterEffect]).timerActive = true
    ∧ (run (initWorld unknownGoalEnv) [.runRouterEffect, .timerFire]).state
        ≠ (run (initWorld unknownGoalEnv) [.runRouterEffect]).state
    ∧ (run (initWorld unknownGoalEnv) [.dismiss]).timerActive = true :=
  ⟨rfl, rfl, by decide, rfl⟩

/-- **C3 (amended).** Teardown runs `abortTimer`, clearing any pending
timer, and after teardown no event — in particular no timer firing — has
any effect on the instance. -/
theorem C3_amended (w : World) (evs : List Event) (h : w.tornDown = false) :
    (step w .teardown).timerActive = false
    ∧ run (step w .teardown) evs = step w .teardown := by
  have ht : step w .teardown = { w with tornDown := true, timerActive := false } := by
    simp [step, h]
  exact ⟨by rw [ht], by rw [ht]; exact run_tornDown _ _ rfl⟩

/-- Witness for C3 (amended) at the concrete mount state: teardown clears
the timer and a subsequent timer firing is a no-op. -/
theorem C3_amended_witness :
    (step (initWorld unknownGoalEnv) .teardown).timerActive = false
    ∧ run (step (initWorld unknownGoalEnv) .teardown) [.timerFire]
        = step (initWorld unknownGoalEnv) .teardown :=
  C3_amended (initWorld unknownGoalEnv) [.timerFire] rfl

/-- **C4 (counterexample).** Dismiss does not cancel the watchdog timer
(`timerRef` stays pending), and a second dismiss after resolution issues a
second Home navigation rather than being a no-op. -/
theorem C4_counterexample :
    (run (initWorld unknownGoalEnv) [.dismiss]).timerActive = true
    ∧ (run (initWorld unknownGoalEnv) [.dismiss, .dismiss]).navLog = [.home, .home] :=
  ⟨rfl, rfl⟩

/-- **C4 (amended).** Dismiss always resolves to Home: it clears the delay
message, sets `inProgress := false` and navigates Home — but it leaves the
timer untouched, and a repeated dismiss rewrites the same local state while
issuing a further Home navigation (idempotent on state, not on
navigation). -/
theorem C4_amended (w : World) (h : w.tornDown = false) :
    (step w .dismiss).state.inProgress = false
    ∧ (step w .dismiss).state.shouldShowDelayMessage = false
    ∧ (step w .dismiss).navLog = .home :: w.navLog
    ∧ (step w .dismiss).timerActive = w.timerActive
    ∧ (step (step w .dismiss) .dismiss).state = (step w .dismiss).state
    ∧ (step (step w .dismiss) .dismiss).navLog = .home :: .home :: w.navLog := by
  simp [step, h, onDismissModalTouched]

/-- Witness for C4 (amended) at the concrete mount state. -/
theorem C4_amended_witness :
    (step (initWorld unknownGoalEnv) .dismiss).state.inProgress = false
    ∧ (step (initWorld unknownGoalEnv) .dismiss).state.shouldShowDelayMessage = false
    ∧ (step (initWorld unknownGoalEnv) .dismiss).navLog = .home :: (initWorld unknownGoalEnv).navLog
    ∧ (step (initWorld unknownGoalEnv) .dismiss).timerActive = (initWorld unknownGoalEnv).timerActive
    ∧ (step (step (initWorld unknownGoalEnv) .dismiss) .dismiss).state
        = (step (initWorld unknownGoalEnv) .dismiss).state
    ∧ (step (step (initWorld unknownGoalEnv) .dismiss) .dismiss).navLog
        = .home :: .home :: (initWorld unknownGoalEnv).navLog :=
  C4_amended (initWorld unknownGoalEnv) rfl

/-! ### Watchdog behaviour (delay hook) -/

/-- **C5.** With no matched notification and no connection when the delay
elapses and auto-redirect enabled: the timer firing followed by the delay
hook resolves Home exactly once, `inProgress` becomes false, the timer is
spent, and re-running the timer/delay pair changes nothing (the watchdog
cannot fire twice and the hook is idempotent after resolution). -/
theorem C5_confirmed (w : World)
    (htd : w.tornDown = false) (htimer : w.timerActive = true)
    (hmatch : w.state.notificationRecord = none) (_hconn : w.env.connection = none)
    (hauto : w.env.autoRedirectConnectionToHome = true) :
    (run w [.timerFire, .runDelayEffect]).navLog = .home :: w.navLog
    ∧ (run w [.timerFire, .runDelayEffect]).state.inProgress = false
    ∧ (run w [.timerFire, .runDelayEffect]).timerActive = false
    ∧ run (run w [.timerFire, .runDelayEffect]) [.timerFire, .runDelayEffect]
        = run w [.timerFire, .runDelayEffect] := by
  have h1 : step w .timerFire
      = { w with state := { w.state with shouldShowDelayMessage := true }, timerActive := false } := by
    simp [step, htd, htimer]
  have h2 : run w [.timerFire, .runDelayEffect]
      = { w with
            state := { w.state with
                         shouldShowDelayMessage := false, inProgress := false },
            timerActive := false,
            navLog := .home :: w.navLog } := by
    show step (step w .timerFire) .runDelayEffect = _
    rw [h1]
    simp [step, htd, delayEffect, hmatch, hauto, applyEffect]
  refine ⟨by rw [h2], by rw [h2], by rw [h2], ?_⟩
  rw [h2]
  show step (step _ .timerFire) .runDelayEffect = _
  simp [step, htd, delayEffect, applyEffect]

/-- Witness for C5 at a concrete instance (auto-redirect on, empty feed,
no connection). -/
theorem C5_confirmed_witness :
    (run (initWorld emptyAutoRedirectEnv) [.timerFire, .runDelayEffect]).navLog
      = .home :: (initWorld emptyAutoRedirectEnv).navLog
    ∧ (run (initWorld emptyAutoRedirectEnv) [.timerFire, .runDelayEffect]).state.inProgress
      = false
    ∧ (run (initWorld emptyAutoRedirectEnv) [.timerFire, .runDelayEffect]).timerActive = false
    ∧ run (run (initWorld emptyAutoRedirectEnv) [.timerFire, .runDelayEffect])
        [.timerFire, .runDelayEffect]
      = run (initWorld emptyAutoRedirectEnv) [.timerFire, .runDelayEffect] :=
  C5_confirmed _ rfl rfl rfl rfl rfl

/-- **C6.** With auto-redirect disabled and no match: the timer firing
surfaces the "taking too long" flag while `inProgress` stays true and no
navigation occurs; re-evaluating the delay hook is a complete no-op
(idempotent), and the spent timer cannot fire a second time.  The
accessibility announcement is an out-of-scope side channel (spec §1); the
surfaced signal is the `shouldShowDelayMessage` flag, set exactly once. -/
theorem C6_confirmed (w : World)
    (htd : w.tornDown = false) (htimer : w.timerActive = true)
    (hmatch : w.state.notificationRecord = none)
    (hauto : w.env.autoRedirectConnectionToHome = false)
    (hprog : w.state.inProgress = true) :
    (run w [.timerFire]).state.shouldShowDelayMessage = true
    ∧ (run w [.timerFire]).state.inProgress = true
    ∧ (run w [.timerFire]).navLog = w.navLog
    ∧ run (run w [.timerFire]) [.runDelayEffect] = run w [.timerFire]
    ∧ run (run w [.timerFire]) [.timerFire] = run w [.timerFire] := by
  have h1 : run w [.timerFire]
      = { w with state := { w.state with shouldShowDelayMessage := true }, timerActive := false } := by
    show step w .timerFire = _
    simp [step, htd, htimer]
  refine ⟨by rw [h1], by rw [h1, hprog], by rw [h1], ?_, ?_⟩
  · rw [h1]
    show step _ .runDelayEffect = _
    simp [step, htd, delayEffect, hmatch, hauto, applyEffect]
  · rw [h1]
    show step _ .timerFire = _
    simp [step, htd]

/-- Witness for C6 at a concrete instance (auto-redirect off, empty feed). -/
theorem C6_confirmed_witness :
    (run (initWorld emptyNoRedirectEnv) [.timerFire]).state.shouldShowDelayMessage = true
    ∧ (run (initWorld emptyNoRedirectEnv) [.timerFire]).state.inProgress = true
    ∧ (run (initWorld emptyNoRedirectEnv) [.timerFire]).navLog
      = (initWorld emptyNoRedirectEnv).navLog
    ∧ run (run (initWorld emptyNoRedirectEnv) [.timerFire]) [.runDelayEffect]
      = run (initWorld emptyNoRedirectEnv) [.timerFire]
    ∧ run (run (initWorld emptyNoRedirectEnv) [.timerFire]) [.timerFire]
      = run (initWorld emptyNoRedirectEnv) [.timerFire] :=
  C6_confirmed _ rfl rfl rfl rfl rfl

/-! ### Router navigation theorems -/

/-- **C7.** A connection together with a goal code outside the vocabulary
resolves immediately to Chat keyed by the connection's id, with no
condition on the notification feed or on any matched notification (zero
notifications suffice). -/
theorem C7_confirmed (w : World) (o : OobRecord) (c : ConnectionRecord)
    (htd : w.tornDown = false) (hprog : w.state.inProgress = true)
    (hoob : w.env.oobRecord = some o) (hconn : w.env.connection = some c)
    (hgoal : goalCodeValues.contains (o.outOfBandInvitation.goalCode.getD "") = false) :
    (step w .runRouterEffect).navLog = .chat c.id :: w.navLog
    ∧ (step w .runRouterEffect).state.inProgress = false := by
  have hgoal' : ¬ (o.outOfBandInvitation.goalCode.getD "" ∈ goalCodeValues) := by
    simpa using hgoal
  have h1 : step w .runRouterEffect
      = { w with state := { w.state with inProgress := false },
                 navLog := .chat c.id :: w.navLog } := by
    simp [step, htd, hoob, hconn, routerEffect, hprog, hgoal', applyEffect]
  exact ⟨by rw [h1], by rw [h1]⟩

/-- Witness for C7: goal code `unknown.goal`, connection present, empty
feed, no matched notification. -/
theorem C7_confirmed_witness :
    (step (initWorld unknownGoalEnv) .runRouterEffect).navLog
      = .chat "conn-1" :: (initWorld unknownGoalEnv).navLog
    ∧ (step (initWorld unknownGoalEnv) .runRouterEffect).state.inProgress = false :=
  C7_confirmed (initWorld unknownGoalEnv)
    { outOfBandInvitation := { goalCode := some "unknown.goal" },
      invitationRequestsThreadIds := some [] }
    { id := "conn-1" } rfl rfl rfl rfl (by decide)

/-- **C8.** With a connection and a matched notification: goal code
`aries.vc.verify` or `aries.vc.verify.once` resolves to ProofRequest keyed
by the matched notification's id; goal code `aries.vc.issue` resolves to
CredentialOffer keyed by the matched notification's id. -/
theorem C8_confirmed (w : World) (o : OobRecord) (c : ConnectionRecord) (n : NotificationRecord)
    (htd : w.tornDown = false) (hprog : w.state.inProgress = true)
    (hoob : w.env.oobRecord = some o) (hconn : w.env.connection = some c)
    (hmatch : w.state.notificationRecord = some n) :
    ((o.outOfBandInvitation.goalCode = some GoalCodes.proofRequestVerify
        ∨ o.outOfBandInvitation.goalCode = some GoalCodes.proofRequestVerifyOnce) →
      (step w .runRouterEffect).navLog = .proofRequest n.id :: w.navLog
      ∧ (step w .runRouterEffect).state.inProgress = false)
    ∧ (o.outOfBandInvitation.goalCode = some GoalCodes.credentialOffer →
      (step w .runRouterEffect).navLog = .credentialOffer n.id :: w.navLog
      ∧ (step w .runRouterEffect).state.inProgress = false) := by
  constructor
  · intro hgc
    have h1 : step w .runRouterEffect
        = { w with state := { w.state with inProgress := false },
                   navLog := .proofRequest n.id :: w.navLog } := by
      rcases hgc with hgc | hgc <;>
        simp [step, htd, hoob, hconn, routerEffect, hprog, hmatch, hgc, applyEffect,
          goalCodeValues, GoalCodes.proofRequestVerify, GoalCodes.proofRequestVerifyOnce,
          GoalCodes.credentialOffer]
    exact ⟨by rw [h1], by rw [h1]⟩
  · intro hgc
    have h1 : step w .runRouterEffect
        = { w with state := { w.state with inProgress := false },
                   navLog := .credentialOffer n.id :: w.navLog } := by
      simp [step, htd, hoob, hconn, routerEffect, hprog, hmatch, hgc, applyEffect,
        goalCodeValues, GoalCodes.proofRequestVerify, GoalCodes.proofRequestVerifyOnce,
        GoalCodes.credentialOffer]
    exact ⟨by rw [h1], by rw [h1]⟩

/-! ### Effect shape lemmas -/

/-- The router either does nothing, or — only while `inProgress` — sets
`inProgress := false` and issues exactly one navigation call. -/
theorem routerEffect_cases (oob : Option OobRecord) (conn : Option ConnectionRecord)
    (s : LocalState) :
    routerEffect oob conn s = (s, none)
    ∨ (s.inProgress = true
        ∧ ∃ d, routerEffect oob conn s = ({ s with inProgress := false }, some d)) := by
  cases oob with
  | none => exact Or.inl rfl
  | some o =>
    cases hp : s.inProgress with
    | false => left; simp [routerEffect, hp]
    | true =>
      cases conn with
      | some c =>
        cases hnr : s.notificationRecord with
        | none =>
          by_cases hg : o.outOfBandInvitation.goalCode.getD "" ∈ goalCodeValues
          · left
            simp [routerEffect, hp, hnr, hg]
          · right
            exact ⟨rfl, .chat c.id, by simp [routerEffect, hp, hnr, hg]⟩
        | some n =>
          right
          refine ⟨rfl, ?_⟩
          by_cases h1 : o.outOfBandInvitation.goalCode = some GoalCodes.proofRequestVerify
              ∨ o.outOfBandInvitation.goalCode = some GoalCodes.proofRequestVerifyOnce
          · rcases h1 with h1 | h1 <;>
              exact ⟨.proofRequest n.id, by
                simp [routerEffect, hp, hnr, h1, goalCodeValues, GoalCodes.proofRequestVerify,
                  GoalCodes.proofRequestVerifyOnce, GoalCodes.credentialOffer]⟩
          · by_cases h2 : o.outOfBandInvitation.goalCode = some GoalCodes.credentialOffer
            · exact ⟨.credentialOffer n.id, by
                simp [routerEffect, hp, hnr, h1, h2, goalCodeValues,
                  GoalCodes.proofRequestVerify, GoalCodes.proofRequestVerifyOnce,
                  GoalCodes.credentialOffer]⟩
            · by_cases hg : o.outOfBandInvitation.goalCode.getD "" ∈ goalCodeValues
              · exact ⟨.chat c.id, by simp [routerEffect, hp, hnr, hg, h1, h2]⟩
              · exact ⟨.chat c.id, by simp [routerEffect, hp, hnr, hg]⟩
      | none =>
        cases hnr : s.notificationRecord with
        | none => left; simp [routerEffect, hp, hnr]
        | some n =>
          right
          exact ⟨rfl, .proofRequest n.id, by simp [routerEffect, hp, hnr]⟩

/-- The OpenID hook either does nothing, or — only while `inProgress` —
sets `inProgress := false` and issues exactly one navigation call. -/
theorem openIDEffect_cases (s : LocalState) :
    openIDEffect s = (s, none)
    ∨ (s.inProgress = true
        ∧ ∃ d, openIDEffect s = ({ s with inProgress := false }, some d)) := by
  cases hp : s.inProgress with
  | false => left; simp [openIDEffect, hp]
  | true =>
    cases hnr : s.notificationRecord with
    | none => left; simp [openIDEffect, hp, hnr]
    | some n =>
      by_cases hty : n.type = .w3cCredentialRecord ∨ n.type = .sdJwtVcRecord
      · right
        refine ⟨rfl, .openIDCredentialDetails n, ?_⟩
        rcases hty with hty | hty <;> simp [openIDEffect, hp, hnr, hty]
      · left
        simp [openIDEffect, hp, hnr, hty]

/-- The delay hook either does nothing to the local state, or resolves the
process to Home. -/
theorem delayEffect_cases (a : Bool) (s : LocalState) :
    delayEffect a s = (s, none)
    ∨ delayEffect a s
        = ({ s with shouldShowDelayMessage := false, inProgress := false }, some .home) := by
  unfold delayEffect
  split
  · split
    · exact Or.inr rfl
    · exact Or.inl rfl
  · exact Or.inl rfl

/-- The matcher never changes `inProgress`. -/
theorem matcherEffect_inProgress (conn : Option ConnectionRecord) (oob : Option OobRecord)
    (notifications : List NotificationRecord) (s : LocalState) :
    (matcherEffect conn oob notifications s).inProgress = s.inProgress := by
  unfold matcherEffect
  split
  · rfl
  · split <;> rfl

/-- With no matched notification yet, the router either waits or resolves
to Chat for a present connection — it cannot reach the match-dependent
branches. -/
theorem routerEffect_no_match (oob : Option OobRecord) (conn : Option ConnectionRecord)
    (s : LocalState) (h : s.notificationRecord = none) :
    routerEffect oob conn s = (s, none)
    ∨ ∃ c, conn = some c
        ∧ routerEffect oob conn s = ({ s with inProgress := false }, some (.chat c.id)) := by
  cases oob with
  | none => exact Or.inl rfl
  | some o =>
    cases hp : s.inProgress with
    | false => left; simp [routerEffect, hp]
    | true =>
      cases conn with
      | none => left; simp [routerEffect, hp, h]
      | some c =>
        by_cases hg : o.outOfBandInvitation.goalCode.getD "" ∈ goalCodeValues
        · left
          simp [routerEffect, hp, hg, h]
        · right
          exact ⟨c, rfl, by simp [routerEffect, hp, hg]⟩

/-- With no matched notification, the OpenID hook does nothing. -/
theorem openIDEffect_no_match (s : LocalState) (h : s.notificationRecord = none) :
    openIDEffect s = (s, none) := by
  cases hp : s.inProgress with
  | false => simp [openIDEffect, hp]
  | true => simp [openIDEffect, hp, h]

/-- BasicMessage records never match (lines 220–223). -/
theorem notifMatches_basic (connection : Option ConnectionRecord) (oobRecord : Option OobRecord)
    (n : NotificationRecord) (h : n.type = .basicMessageRecord) :
    notifMatches connection oobRecord n = false := by
  simp [notifMatches, h]

/-- W3C credential and SD-JWT VC records always match, whatever the
correlation checks yield (lines 225–243). -/
theorem notifMatches_openID (connection : Option ConnectionRecord) (oobRecord : Option OobRecord)
    (n : NotificationRecord) (hty : n.type = .w3cCredentialRecord ∨ n.type = .sdJwtVcRecord) :
    notifMatches connection oobRecord n = true := by
  rcases hty with h | h <;> simp [notifMatches, h]

/-- A feed consisting of BasicMessage records only. -/
def basicOnly (notifications : List NotificationRecord) : Bool :=
  notifications.all fun n => n.type == .basicMessageRecord

/-- Over a BasicMessage-only feed the matcher is a no-op. -/
theorem matcherEffect_basicOnly (connection : Option ConnectionRecord)
    (oobRecord : Option OobRecord) (notifications : List NotificationRecord)
    (s : LocalState) (h : basicOnly notifications = true) :
    matcherEffect connection oobRecord notifications s = s := by
  have hfind : notifications.find? (notifMatches connection oobRecord) = none := by
    rw [List.find?_eq_none]
    intro n hn
    have hb : n.type = .basicMessageRecord := by
      have := List.all_eq_true.mp h n hn
      simpa using this
    simp [notifMatches_basic connection oobRecord n hb]
  unfold matcherEffect
  split
  · rfl
  · rw [hfind]

/-! ### Monotonicity of the match (C10) -/

/-- **C10.** Once `matchedNotification` is set it survives every reaction
unchanged — no event replaces or clears it — and the matcher is a complete
no-op whenever a match already exists or `inProgress` is false. -/
theorem C10_confirmed (w : World) (e : Event) :
    (∀ n, w.state.notificationRecord = some n → (step w e).state.notificationRecord = some n)
    ∧ ((w.state.notificationRecord.isSome = true ∨ w.state.inProgress = false) →
        step w .runMatcherEffect = w) := by
  constructor
  · intro n hn
    by_cases htd : w.tornDown = true
    · rw [step_tornDown w e htd]; exact hn
    · have htd' : w.tornDown = false := by simpa using htd
      cases e with
      | setEnv env => simp [step, htd', hn]
      | timerFire =>
          by_cases hta : w.timerActive = true
          · simp [step, htd', hta, hn]
          · have h4 : w.timerActive = false := by simpa using hta
            simp [step, htd', h4, hn]
      | runDelayEffect =>
          rcases delayEffect_cases w.env.autoRedirectConnectionToHome w.state with hc | hc <;>
            simp [step, htd', applyEffect, hc, hn]
      | runRouterEffect =>
          rcases routerEffect_cases w.env.oobRecord w.env.connection w.state with
              hc | ⟨_, d, hc⟩ <;>
            simp [step, htd', applyEffect, hc, hn]
      | runOpenIDEffect =>
          rcases openIDEffect_cases w.state with hc | ⟨_, d, hc⟩ <;>
            simp [step, htd', applyEffect, hc, hn]
      | runMatcherEffect => simp [step, htd', matcherEffect, hn]
      | dismiss => simp [step, htd', onDismissModalTouched, hn]
      | teardown => simp [step, htd', hn]
  · intro h
    by_cases htd : w.tornDown = true
    · exact step_tornDown w _ htd
    · have htd' : w.tornDown = false := by simpa using htd
      have hm : matcherEffect w.env.connection w.env.oobRecord w.env.notifications w.state
          = w.state := by
        unfold matcherEffect
        rcases h with h1 | h1 <;> simp [h1]
      have hstep : step w .runMatcherEffect
          = { w with state := matcherEffect w.env.connection w.env.oobRecord
                       w.env.notifications w.state } := by
        rw [step]
        simp [htd']
      rw [hstep, hm]

/-- Witness for C10: with a matched notification in place, a dismiss keeps
the match and the matcher is a no-op. -/
theorem C10_confirmed_witness :
    (step (run (initWorld verifyOnceNoConnEnv) [.runMatcherEffect]) .dismiss).state.notificationRecord
      = some w3cNotification
    ∧ step (run (initWorld verifyOnceNoConnEnv) [.runMatcherEffect]) .runMatcherEffect
      = run (initWorld verifyOnceNoConnEnv) [.runMatcherEffect] :=
  ⟨(C10_confirmed (run (initWorld verifyOnceNoConnEnv) [.runMatcherEffect]) .dismiss).1
      w3cNotification rfl,
   (C10_confirmed (run (initWorld verifyOnceNoConnEnv) [.runMatcherEffect]) .runMatcherEffect).2
      (Or.inl rfl)⟩

/-! ### At-most-one resolution (C1) -/

/-- The reactions in C1's scope — observer updates, matcher, router, OpenID
hook, timer expiry, teardown — excluding the delay-hook evaluation (not
guarded by `inProgress`) and the user's dismiss action. -/
def isRouterPhaseEvent : Event → Bool
  | .runDelayEffect => false
  | .dismiss => false
  | _ => true

/-- Each in-scope reaction either leaves the navigation log and
`inProgress` unchanged, or — starting from `inProgress` — issues exactly
one navigation and drops `inProgress`. -/
theorem step_resolve_cases (w : World) (e : Event) (he : isRouterPhaseEvent e = true) :
    ((step w e).navLog = w.navLog ∧ (step w e).state.inProgress = w.state.inProgress)
    ∨ (w.state.inProgress = true ∧ (step w e).state.inProgress = false
        ∧ ∃ d, (step w e).navLog = d :: w.navLog) := by
  by_cases htd : w.tornDown = true
  · rw [step_tornDown w e htd]; exact Or.inl ⟨rfl, rfl⟩
  · have htd' : w.tornDown = false := by simpa using htd
    cases e with
    | setEnv env => left; exact ⟨by simp [step, htd'], by simp [step, htd']⟩
    | timerFire =>
        left
        by_cases hta : w.timerActive = true
        · exact ⟨by simp [step, htd', hta], by simp [step, htd', hta]⟩
        · have h4 : w.timerActive = false := by simpa using hta
          exact ⟨by simp [step, htd', h4], by simp [step, htd', h4]⟩
    | runRouterEffect =>
        rcases routerEffect_cases w.env.oobRecord w.env.connection w.state with hc | ⟨hp, d, hc⟩
        · left; exact ⟨by simp [step, htd', applyEffect, hc], by simp [step, htd', applyEffect, hc]⟩
        · right
          exact ⟨hp, by simp [step, htd', applyEffect, hc],
            d, by simp [step, htd', applyEffect, hc]⟩
    | runOpenIDEffect =>
        rcases openIDEffect_cases w.state with hc | ⟨hp, d, hc⟩
        · left; exact ⟨by simp [step, htd', applyEffect, hc], by simp [step, htd', applyEffect, hc]⟩
        · right
          exact ⟨hp, by simp [step, htd', applyEffect, hc],
            d, by simp [step, htd', applyEffect, hc]⟩
    | runMatcherEffect =>
        left
        exact ⟨by simp [step, htd'], by simp [step, htd', matcherEffect_inProgress]⟩
    | teardown => left; exact ⟨by simp [step, htd'], by simp [step, htd']⟩
    | runDelayEffect => simp [isRouterPhaseEvent] at he
    | dismiss => simp [isRouterPhaseEvent] at he

/-- Invariant of C1: at most one navigation so far, and none while
`inProgress` still holds; preserved along any in-scope reaction
sequence. -/
theorem run_resolve_inv (w : World) (evs : List Event) :
    (∀ e ∈ evs, isRouterPhaseEvent e = true) →
    w.navLog.length ≤ 1 → (w.state.inProgress = true → w.navLog = []) →
    (run w evs).navLog.length ≤ 1
      ∧ ((run w evs).state.inProgress = true → (run w evs).navLog = []) := by
  induction evs generalizing w with
  | nil => exact fun _ h1 h2 => ⟨h1, h2⟩
  | cons e evs ih =>
    intro hevs h1 h2
    have hrest : ∀ e' ∈ evs, isRouterPhaseEvent e' = true :=
      fun e' he' => hevs e' (List.mem_cons_of_mem e he')
    rcases step_resolve_cases w e (hevs e (List.mem_cons_self e evs)) with
        ⟨hn, hip⟩ | ⟨hp, hip, d, hn⟩
    · exact ih (step w e) hrest (hn ▸ h1)
        (fun h => by rw [hn]; exact h2 (by rw [← hip]; exact h))
    · have h0 : w.navLog = [] := h2 hp
      refine ih (step w e) hrest ?_ ?_
      · rw [hn, h0]; simp
      · intro hcontra
        simp [hip] at hcontra

/-- **C1 (amended).** Over every sequence of observer, matcher, router,
OpenID-hook, timer-expiry and teardown reactions — that is, excluding the
delay-hook evaluation, which is not guarded by `inProgress`, and the
dismiss action — a fresh instance issues at most one navigation call, and
whenever `inProgress` still holds no navigation has been issued.  The delay
path breaks the original claim (see the counterexample): after the first
navigation a pending timer may still mutate `shouldShowDelayMessage`, and
the delay hook with auto-redirect enabled may then navigate Home again. -/
theorem C1_amended (env0 : Env) (evs : List Event)
    (hevs : ∀ e ∈ evs, isRouterPhaseEvent e = true) :
    (run (initWorld env0) evs).navLog.length ≤ 1
    ∧ ((run (initWorld env0) evs).state.inProgress = true
        → (run (initWorld env0) evs).navLog = []) :=
  run_resolve_inv (initWorld env0) evs hevs (Nat.zero_le 1) (fun _ => rfl)

/-- Witness for C1 (amended) on a concrete in-scope reaction sequence. -/
theorem C1_amended_witness :
    (run (initWorld verifyOnceNoConnEnv)
        [.runMatcherEffect, .runRouterEffect, .runOpenIDEffect, .timerFire]).navLog.length ≤ 1
    ∧ ((run (initWorld verifyOnceNoConnEnv)
          [.runMatcherEffect, .runRouterEffect, .runOpenIDEffect, .timerFire]).state.inProgress
          = true
        → (run (initWorld verifyOnceNoConnEnv)
            [.runMatcherEffect, .runRouterEffect, .runOpenIDEffect, .timerFire]).navLog = []) :=
  C1_amended verifyOnceNoConnEnv
    [.runMatcherEffect, .runRouterEffect, .runOpenIDEffect, .timerFire] (by decide)

/-! ### BasicMessage-only streams (C9) -/

/-- Reactions allowed by C9: anything, as long as every observer update
supplies a BasicMessage-only feed. -/
def basicOnlyEvent : Event → Bool
  | .setEnv e => basicOnly e.notifications
  | _ => true

/-- Destinations reachable without a matched notification: Chat (router
step 2) and Home (watchdog auto-redirect / dismiss).  The match-dependent
rules (router steps 4–6) produce the other destinations. -/
def matchFreeNav : Destination → Bool
  | .chat _ => true
  | .home => true
  | _ => false

/-- The C9 invariant: no match recorded, the feed offers only BasicMessage
candidates, and every navigation so far avoided the match-dependent
destinations. -/
def noMatchInv (w : World) : Prop :=
  w.state.notificationRecord = none ∧ basicOnly w.env.notifications = true
    ∧ w.navLog.all matchFreeNav = true

/-- One allowed reaction preserves the C9 invariant. -/
theorem step_noMatchInv (w : World) (e : Event) (he : basicOnlyEvent e = true)
    (hw : noMatchInv w) : noMatchInv (step w e) := by
  obtain ⟨h1, h2, h3⟩ := hw
  by_cases htd : w.tornDown = true
  · rw [step_tornDown w e htd]; exact ⟨h1, h2, h3⟩
  · have htd' : w.tornDown = false := by simpa using htd
    cases e with
    | setEnv env =>
        refine ⟨by simp [step, htd', h1], ?_, by simp [step, htd', h3]⟩
        have hbe : basicOnly env.notifications = true := by simpa [basicOnlyEvent] using he
        simp [step, htd', hbe]
    | timerFire =>
        by_cases hta : w.timerActive = true
        · exact ⟨by simp [step, htd', hta, h1], by simp [step, htd', hta, h2],
            by simp [step, htd', hta, h3]⟩
        · have h4 : w.timerActive = false := by simpa using hta
          exact ⟨by simp [step, htd', h4, h1], by simp [step, htd', h4, h2],
            by simp [step, htd', h4, h3]⟩
    | runDelayEffect =>
        rcases delayEffect_cases w.env.autoRedirectConnectionToHome w.state with hc | hc <;>
          exact ⟨by simp [step, htd', applyEffect, hc, h1],
            by simp [step, htd', applyEffect, hc, h2],
            by simp [step, htd', applyEffect, hc, h3, matchFreeNav]⟩
    | runRouterEffect =>
        rcases routerEffect_no_match w.env.oobRecord w.env.connection w.state h1 with
            hc | ⟨c, hcc, hc⟩ <;>
          exact ⟨by simp [step, htd', applyEffect, hc, h1],
            by simp [step, htd', applyEffect, hc, h2],
            by simp [step, htd', applyEffect, hc, h3, matchFreeNav]⟩
    | runOpenIDEffect =>
        have hc := openIDEffect_no_match w.state h1
        exact ⟨by simp [step, htd', applyEffect, hc, h1],
          by simp [step, htd', applyEffect, hc, h2],
          by simp [step, htd', applyEffect, hc, h3]⟩
    | runMatcherEffect =>
        have hm := matcherEffect_basicOnly w.env.connection w.env.oobRecord
          w.env.notifications w.state h2
        exact ⟨by simp [step, htd', hm, h1], by simp [step, htd', hm, h2],
          by simp [step, htd', hm, h3]⟩
    | dismiss =>
        exact ⟨by simp [step, htd', onDismissModalTouched, h1],
          by simp [step, htd', onDismissModalTouched, h2],
          by simp [step, htd', onDismissModalTouched, h3, matchFreeNav]⟩
    | teardown =>
        exact ⟨by simp [step, htd', h1], by simp [step, htd', h2], by simp [step, htd', h3]⟩

/-- The C9 invariant holds along every allowed reaction sequence. -/
theorem run_noMatchInv (w : World) (evs : List Event) :
    (∀ e ∈ evs, basicOnlyEvent e = true) → noMatchInv w → noMatchInv (run w evs) := by
  induction evs generalizing w with
  | nil => exact fun _ hw => hw
  | cons e evs ih =>
    intro hevs hw
    exact ih (step w e) (fun e' he' => hevs e' (List.mem_cons_of_mem e he'))
      (step_noMatchInv w e (hevs e (List.mem_cons_self e evs)) hw)

/-- **C9.** Over a BasicMessage-only feed (initially, and in every observer
update), the matcher never sets `matchedNotification`, and every navigation
the instance ever issues is match-free (Chat or Home) — the router never
resolves via the match-dependent rules. -/
theorem C9_confirmed (env0 : Env) (evs : List Event)
    (h0 : basicOnly env0.notifications = true)
    (hevs : ∀ e ∈ evs, basicOnlyEvent e = true) :
    (run (initWorld env0) evs).state.notificationRecord = none
    ∧ (run (initWorld env0) evs).navLog.all matchFreeNav = true := by
  have h := run_noMatchInv (initWorld env0) evs hevs ⟨rfl, h0, rfl⟩
  exact ⟨h.1, h.2.2⟩

/-- A connection and a verify invitation whose feed holds a single
BasicMessage record — even one correlated by connection id and thread
id. -/
def basicFeedEnv : Env :=
  { oobRecord := some { outOfBandInvitation := { goalCode := some GoalCodes.proofRequestVerify },
                        invitationRequestsThreadIds := some ["thread-9"] },
    connection := some { id := "conn-9" },
    notifications := [{ type := .basicMessageRecord, id := "bm-1",
                        connectionId := some "conn-9", threadId := some "thread-9" }],
    autoRedirectConnectionToHome := true }

/-- Witness for C9 on a concrete BasicMessage-only run exercising every
reaction kind. -/
theorem C9_confirmed_witness :
    (run (initWorld basicFeedEnv)
        [.runMatcherEffect, .runRouterEffect, .runOpenIDEffect, .timerFire, .runDelayEffect,
          .dismiss]).state.notificationRecord = none
    ∧ (run (initWorld basicFeedEnv)
        [.runMatcherEffect, .runRouterEffect, .runOpenIDEffect, .timerFire, .runDelayEffect,
          .dismiss]).navLog.all matchFreeNav = true :=
  C9_confirmed basicFeedEnv
    [.runMatcherEffect, .runRouterEffect, .runOpenIDEffect, .timerFire, .runDelayEffect,
      .dismiss] rfl (by decide)

/-! ### OpenID preemption (C2 amended) and goal-code routing witness data -/

/-- A one-record feed with no connection; `oob` is the optional invitation
record, `n` the sole candidate notification. -/
def soloFeedEnv (oob : Option OobRecord) (n : NotificationRecord) : Env :=
  { oobRecord := oob, connection := none, notifications := [n],
    autoRedirectConnectionToHome := false }

/-- **C2 (amended).** With a matched W3C/SD-JWT record and no connection:
when no invitation record is present (the OpenID flow described by the
hook's own comment), the process resolves to OpenIDCredentialDetails
carrying the record; but when an invitation record is present — whatever
its goal code — the router's connectionless branch runs first and resolves
to ProofRequest keyed by the record's id, and no OpenIDCredentialDetails
navigation occurs. -/
theorem C2_amended (n : NotificationRecord) (o : OobRecord)
    (hty : n.type = .w3cCredentialRecord ∨ n.type = .sdJwtVcRecord) :
    (run (initWorld (soloFeedEnv none n))
        [.runMatcherEffect, .runRouterEffect, .runOpenIDEffect]).navLog
      = [.openIDCredentialDetails n]
    ∧ (run (initWorld (soloFeedEnv (some o) n))
        [.runMatcherEffect, .runRouterEffect, .runOpenIDEffect]).navLog
      = [.proofRequest n.id] := by
  constructor
  · have hfind : [n].find? (notifMatches none none) = some n := by
      simp [List.find?, notifMatches_openID none none n hty]
    have hw1 : run (initWorld (soloFeedEnv none n)) [.runMatcherEffect]
        = { env := soloFeedEnv none n,
            state := { inProgress := true, notificationRecord := some n,
                       shouldShowDelayMessage := false },
            timerActive := true, tornDown := false, navLog := [] } := by
      show step (initWorld (soloFeedEnv none n)) .runMatcherEffect = _
      simp [step, initWorld, initialLocalState, soloFeedEnv, matcherEffect, hfind]
    have hsplit : run (initWorld (soloFeedEnv none n))
          [.runMatcherEffect, .runRouterEffect, .runOpenIDEffect]
        = step (step (run (initWorld (soloFeedEnv none n)) [.runMatcherEffect])
            .runRouterEffect) .runOpenIDEffect := rfl
    rw [hsplit, hw1]
    rcases hty with h | h <;>
      simp [step, soloFeedEnv, routerEffect, openIDEffect, applyEffect, h]
  · have hfind : [n].find? (notifMatches none (some o)) = some n := by
      simp [List.find?, notifMatches_openID none (some o) n hty]
    have hw1 : run (initWorld (soloFeedEnv (some o) n)) [.runMatcherEffect]
        = { env := soloFeedEnv (some o) n,
            state := { inProgress := true, notificationRecord := some n,
                       shouldShowDelayMessage := false },
            timerActive := true, tornDown := false, navLog := [] } := by
      show step (initWorld (soloFeedEnv (some o) n)) .runMatcherEffect = _
      simp [step, initWorld, initialLocalState, soloFeedEnv, matcherEffect, hfind]
    have hsplit : run (initWorld (soloFeedEnv (some o) n))
          [.runMatcherEffect, .runRouterEffect, .runOpenIDEffect]
        = step (step (run (initWorld (soloFeedEnv (some o) n)) [.runMatcherEffect])
            .runRouterEffect) .runOpenIDEffect := rfl
    rw [hsplit, hw1]
    simp [step, soloFeedEnv, routerEffect, openIDEffect, applyEffect]

/-- The invitation record of the C2 scenario: goal code
`aries.vc.verify.once`, no correlation thread ids. -/
def verifyOnceOob : OobRecord :=
  { outOfBandInvitation := { goalCode := some GoalCodes.proofRequestVerifyOnce },
    invitationRequestsThreadIds := some [] }

/-- Witness for C2 (amended) at the concrete W3C record: with no invitation
the OpenID destination is reached; with the verify-once invitation the
ProofRequest destination is reached instead. -/
theorem C2_amended_witness :
    (run (initWorld (soloFeedEnv none w3cNotification))
        [.runMatcherEffect, .runRouterEffect, .runOpenIDEffect]).navLog
      = [.openIDCredentialDetails w3cNotification]
    ∧ (run (initWorld (soloFeedEnv (some verifyOnceOob) w3cNotification))
        [.runMatcherEffect, .runRouterEffect, .runOpenIDEffect]).navLog
      = [.proofRequest "w3c-1"] :=
  C2_amended w3cNotification verifyOnceOob (Or.inl rfl)

/-- A credential-exchange notification correlated to connection `conn-1`. -/
def credExNotification : NotificationRecord :=
  { type := .credentialExchangeRecord, id := "cred-1", connectionId := some "conn-1",
    threadId := some "thread-1" }

/-- A connection together with an `aries.vc.issue` invitation and a
correlated credential-exchange notification in the feed. -/
def issueEnv : Env :=
  { oobRecord := some { outOfBandInvitation := { goalCode := some GoalCodes.credentialOffer },
                        invitationRequestsThreadIds := some ["thread-1"] },
    connection := some { id := "conn-1" },
    notifications := [credExNotification],
    autoRedirectConnectionToHome := false }

/-- Witness for C8 at the concrete issue scenario: after the matcher
records the correlated credential-exchange notification, the router
resolves to CredentialOffer keyed by its id. -/
theorem C8_confirmed_witness :
    (step (run (initWorld issueEnv) [.runMatcherEffect]) .runRouterEffect).navLog
      = .credentialOffer "cred-1" :: (run (initWorld issueEnv) [.runMatcherEffect]).navLog
    ∧ (step (run (initWorld issueEnv) [.runMatcherEffect]) .runRouterEffect).state.inProgress
      = false :=
  (C8_confirmed (run (initWorld issueEnv) [.runMatcherEffect])
      { outOfBandInvitation := { goalCode := some GoalCodes.credentialOffer },
        invitationRequestsThreadIds := some ["thread-1"] }
      { id := "conn-1" } credExNotification rfl rfl rfl rfl rfl).2 rfl

end ConnectionScreen
